import Mathlib

/-!
Verification of the copo payment-gateway adapter.

This file gives a shallow embedding, in Lean, of the signing / verification /
callback-reconciliation core of the adapter:

* `Copo.md5Bytes` / `Copo.md5Hex` — the MD5 digest (RFC 1321) used by the
  provider's legacy signature scheme, implemented over `Nat` with explicit
  `% 2^32` arithmetic so that everything evaluates in the kernel.
* `Copo.generateSign` — `CopoService.generateSign` / `PaymentService.generateSign`
  (filter empty values and `sign`, stringify, ASCII-sort keys, join as
  `k=v&...`, append `&Key=<signKey>`, MD5, lowercase hex).
* `Copo.verifyCallbackSignature` — `CopoService.verifyCallbackSignature`.
* Transaction records and stores for deposits and withdraws, and the
  state-transforming operations `requestPayment`, `createWithdraw`,
  `depositCallback` (`PaymentService.callback`) and `withdrawHandleCallback`
  (`WithdrawService.handleCallback`), modelled as pure functions from a store
  and the inbound data to a result, a new store and a trace of store
  operations.
* `Copo.dispatch` — the unified callback endpoint's deposit/withdraw
  disambiguation by the `WITHDRAW` substring of the order number
  (`AppController.callbackPost`).

Database writes are modelled as explicit store passing; wall-clock values
(`Date.now()`, `new Date()`) are passed as explicit `Nat` parameters; the
provider's HTTP answer is passed as an explicit `ProviderOutcome` value.
-/

namespace Copo

set_option maxRecDepth 1000000

/-! ## MD5 (RFC 1321) over `Nat` with explicit 32-bit arithmetic -/

/-- 2^32, the modulus for 32-bit machine arithmetic used by MD5. -/
def M32 : Nat := 4294967296

/-- Left-rotate a 32-bit word (a `Nat` below 2^32) by `n` bits. -/
def rotl32 (x n : Nat) : Nat := ((x <<< n) ||| (x >>> (32 - n))) % M32

/-- Bitwise complement on 32 bits. -/
def not32 (x : Nat) : Nat := x ^^^ 4294967295

/-- The 64 MD5 round constants `K[i] = floor(|sin(i+1)| * 2^32)`. -/
def md5K : List Nat :=
  [0xd76aa478, 0xe8c7b756, 0x242070db, 0xc1bdceee,
   0xf57c0faf, 0x4787c62a, 0xa8304613, 0xfd469501,
   0x698098d8, 0x8b44f7af, 0xffff5bb1, 0x895cd7be,
   0x6b901122, 0xfd987193, 0xa679438e, 0x49b40821,
   0xf61e2562, 0xc040b340, 0x265e5a51, 0xe9b6c7aa,
   0xd62f105d, 0x02441453, 0xd8a1e681, 0xe7d3fbc8,
   0x21e1cde6, 0xc33707d6, 0xf4d50d87, 0x455a14ed,
   0xa9e3e905, 0xfcefa3f8, 0x676f02d9, 0x8d2a4c8a,
   0xfffa3942, 0x8771f681, 0x6d9d6122, 0xfde5380c,
   0xa4beea44, 0x4bdecfa9, 0xf6bb4b60, 0xbebfbc70,
   0x289b7ec6, 0xeaa127fa, 0xd4ef3085, 0x04881d05,
   0xd9d4d039, 0xe6db99e5, 0x1fa27cf8, 0xc4ac5665,
   0xf4292244, 0x432aff97, 0xab9423a7, 0xfc93a039,
   0x655b59c3, 0x8f0ccc92, 0xffeff47d, 0x85845dd1,
   0x6fa87e4f, 0xfe2ce6e0, 0xa3014314, 0x4e0811a1,
   0xf7537e82, 0xbd3af235, 0x2ad7d2bb, 0xeb86d391]

/-- The 64 MD5 per-step left-rotation amounts. -/
def md5S : List Nat :=
  [7, 12, 17, 22, 7, 12, 17, 22, 7, 12, 17, 22, 7, 12, 17, 22,
   5, 9, 14, 20, 5, 9, 14, 20, 5, 9, 14, 20, 5, 9, 14, 20,
   4, 11, 16, 23, 4, 11, 16, 23, 4, 11, 16, 23, 4, 11, 16, 23,
   6, 10, 15, 21, 6, 10, 15, 21, 6, 10, 15, 21, 6, 10, 15, 21]

/-- The MD5 nonlinear round function for step `i` on words `b`, `c`, `d`. -/
def md5F (i b c d : Nat) : Nat :=
  if i < 16 then (b &&& c) ||| (not32 b &&& d)
  else if i < 32 then (d &&& b) ||| (not32 d &&& c)
  else if i < 48 then b ^^^ c ^^^ d
  else c ^^^ (b ||| not32 d)

/-- The MD5 message-word index scheduled for step `i`. -/
def md5G (i : Nat) : Nat :=
  if i < 16 then i
  else if i < 32 then (5 * i + 1) % 16
  else if i < 48 then (3 * i + 5) % 16
  else (7 * i) % 16

/-- One MD5 step, rotating the state `(a, b, c, d)` with message words `w`. -/
def md5Step (w : List Nat) (st : Nat × Nat × Nat × Nat) (i : Nat) :
    Nat × Nat × Nat × Nat :=
  let a := st.1; let b := st.2.1; let c := st.2.2.1; let d := st.2.2.2
  let tmp := (a + md5F i b c d + md5K.getD i 0 + w.getD (md5G i) 0) % M32
  (d, (b + rotl32 tmp (md5S.getD i 0)) % M32, b, c)

/-- Decode a byte list into little-endian 32-bit words, 4 bytes each. -/
def leWords : List Nat → List Nat
  | b0 :: b1 :: b2 :: b3 :: rest =>
      (b0 + 256 * b1 + 65536 * b2 + 16777216 * b3) :: leWords rest
  | _ => []

/-- Compress one 64-byte block into the running MD5 state. -/
def md5Block (h : Nat × Nat × Nat × Nat) (block : List Nat) :
    Nat × Nat × Nat × Nat :=
  let w := leWords block
  let r := (List.range 64).foldl (md5Step w) h
  ((h.1 + r.1) % M32, (h.2.1 + r.2.1) % M32,
   (h.2.2.1 + r.2.2.1) % M32, (h.2.2.2 + r.2.2.2) % M32)

/-- Split a byte list into successive 64-byte blocks, driven by explicit fuel
so that the definition is structural and evaluates in the kernel. -/
def chunks64Aux : Nat → List Nat → List (List Nat)
  | 0, _ => []
  | n + 1, l => l.take 64 :: chunks64Aux n (l.drop 64)

/-- Split a byte list whose length is a multiple of 64 into 64-byte blocks. -/
def chunks64 (l : List Nat) : List (List Nat) := chunks64Aux (l.length / 64) l

/-- MD5 padding: append `0x80`, zero bytes up to 56 mod 64, then the 64-bit
little-endian bit length of the message. -/
def md5Pad (msg : List Nat) : List Nat :=
  let bitLen := (8 * msg.length) % (2 ^ 64)
  let zeros := (55 + 64 - msg.length % 64) % 64
  msg ++ 128 :: List.replicate zeros 0 ++
    [bitLen % 256, bitLen / 256 % 256, bitLen / 65536 % 256,
     bitLen / 16777216 % 256, bitLen / 4294967296 % 256,
     bitLen / 1099511627776 % 256, bitLen / 281474976710656 % 256,
     bitLen / 72057594037927936 % 256]

/-- Serialize a 32-bit word to 4 little-endian bytes. -/
def leBytes (w : Nat) : List Nat :=
  [w % 256, w / 256 % 256, w / 65536 % 256, w / 16777216 % 256]

/-- The 16-byte MD5 digest of a byte-list message. -/
def md5Bytes (msg : List Nat) : List Nat :=
  let h := (chunks64 (md5Pad msg)).foldl md5Block
    (0x67452301, 0xefcdab89, 0x98badcfe, 0x10325476)
  leBytes h.1 ++ leBytes h.2.1 ++ leBytes h.2.2.1 ++ leBytes h.2.2.2

/-- The lowercase hexadecimal digit for a nibble value: `0`–`9` then
`a`–`f`. -/
def hexDigit (n : Nat) : Char :=
  if n < 10 then Char.ofNat (48 + n) else Char.ofNat (87 + n)

/-- Render a byte as two lowercase hexadecimal characters. -/
def hexByte (b : Nat) : List Char := [hexDigit (b / 16), hexDigit (b % 16)]

/-- The bytes of a string. The strings signed by this service are ASCII, for
which this agrees with the UTF-8 encoding used by `crypto.createHash`. -/
def strBytes (s : String) : List Nat := s.data.map Char.toNat

/-- The lowercase hexadecimal MD5 digest of a string: the model of
`createHash('md5').update(s).digest('hex')`. -/
def md5Hex (s : String) : String :=
  ⟨((md5Bytes (strBytes s)).map hexByte).flatten⟩

/-- `String.prototype.toLowerCase()` on the ASCII strings this service
handles, defined structurally over the character list so it evaluates in the
kernel. -/
def jsToLowerCase (s : String) : String := ⟨s.data.map Char.toLower⟩

/-! ## The Signer: `generateSign`

`CopoService.generateSign` and `PaymentService.generateSign` are two verbatim
copies of the same function over `params: Record<string, any>`.  A JS object
is modelled as an association list with distinct keys; a JS value as `PVal`.
-/

/-- A JS parameter value as it reaches `generateSign`: a string, a number
(integral in every call site), or `null`/`undefined`. -/
inductive PVal where
  | s (v : String)
  | i (v : Int)
  | null
deriving DecidableEq, Repr

/-- The filter `value !== '' && value != null` from `generateSign` step 1
(the key filter `key !== 'sign'` is applied separately). -/
def PVal.keep : PVal → Bool
  | .s v => v != ""
  | .i _ => true
  | .null => false

/-- `String(value)`: stringification of a kept parameter value. -/
def PVal.str : PVal → String
  | .s v => v
  | .i v => toString v
  | .null => "null"

/-- Step 1 of `generateSign`: drop entries with empty/null values and the
entry named `sign`, and stringify the remaining values. -/
def filteredParams (params : List (String × PVal)) : List (String × String) :=
  (params.filter (fun kv => kv.2.keep && kv.1 != "sign")).map
    (fun kv => (kv.1, kv.2.str))

/-- Object indexing `obj[key]` on a stringified parameter object (`''` when
the key is absent, which never happens after step 1). -/
def lookupD (l : List (String × String)) (k : String) : String :=
  ((l.find? (fun kv => kv.1 == k)).map Prod.snd).getD ""

/-- Code-unit comparison of character lists: the comparison used by the JS
default `Array.prototype.sort` on the ASCII key strings. Defined structurally
so it evaluates in the kernel (unlike `String.ltb`). -/
def charListLe (xs ys : List Char) : Bool :=
  match xs, ys with
  | [], _ => true
  | _ :: _, [] => false
  | x :: xrest, y :: yrest =>
      if x.toNat < y.toNat then true
      else if y.toNat < x.toNat then false
      else charListLe xrest yrest

/-- `a` sorts no later than `b` under the JS default string sort
(ascending byte/ordinal order on ASCII strings). -/
def strLe (a b : String) : Prop := charListLe a.data b.data = true

instance : DecidableRel strLe := fun _ _ => instDecidableEqBool _ _

/-- Ordering of (key, value) pairs by key, for the spec-side sort. -/
def pairKeyLe (p q : String × String) : Prop := strLe p.1 q.1

instance : DecidableRel pairKeyLe := fun _ _ => instDecidableEqBool _ _

/-- Step 2–4 of `generateSign`: ASCII-sort the keys of the filtered object
and join them as `key1=value1&key2=value2&...`, reading each value back out
of the object, exactly as the source maps `sortedKeys` through
`filteredParams[key]`. -/
def signString (params : List (String × PVal)) (signKey : String) : String :=
  let fp := filteredParams params
  let sortedKeys := List.insertionSort strLe (fp.map Prod.fst)
  let queryString :=
    String.intercalate "&" (sortedKeys.map (fun k => k ++ "=" ++ lookupD fp k))
  queryString ++ "&Key=" ++ signKey

/-- `generateSign`: MD5 of the sign string, rendered as lowercase hex
(`digest('hex').toLowerCase()`). -/
def generateSign (params : List (String × PVal)) (signKey : String) : String :=
  jsToLowerCase (md5Hex (signString params signKey))

/-- The sign string as the specification words it: drop empty/null/`sign`
entries, stringify, sort the remaining (key, value) pairs by ascending key,
concatenate `k=v` with `&`, append `&Key=<secretKey>`. This definition
follows the spec text and is compared against `generateSign` above. -/
def specSignString (params : List (String × PVal)) (signKey : String) : String :=
  let fp := filteredParams params
  let sorted := List.insertionSort pairKeyLe fp
  String.intercalate "&" (sorted.map (fun kv => kv.1 ++ "=" ++ kv.2)) ++
    "&Key=" ++ signKey

/-! ## The Verifier and the callback DTO -/

/-- The callback payload (`CopoCallbackDto`; the withdraw callback carries
the same fields used by the code: `orderNo`, `orderStatus`, `orderAmount`,
`fee`, `sign`). Optional fields model `@IsOptional` properties that may be
absent. -/
structure CallbackDto where
  accessType : String
  fee : Option String := none
  language : Option String := none
  merchantId : String
  orderAmount : String
  orderNo : String
  orderStatus : String
  orderTime : Option String := none
  payOrderId : String
  payOrderTime : Option String := none
  sign : String
deriving DecidableEq, Repr

/-- An optional DTO property as a JS value: absent is `undefined`, which the
`value != null` filter in `generateSign` drops. -/
def optV : Option String → PVal
  | some s => .s s
  | none => .null

/-- The callback DTO as the parameter object `{...dto}` seen by
`generateSign`, fields in declaration order. -/
def dtoParams (dto : CallbackDto) : List (String × PVal) :=
  [("accessType", .s dto.accessType), ("fee", optV dto.fee),
   ("language", optV dto.language), ("merchantId", .s dto.merchantId),
   ("orderAmount", .s dto.orderAmount), ("orderNo", .s dto.orderNo),
   ("orderStatus", .s dto.orderStatus), ("orderTime", optV dto.orderTime),
   ("payOrderId", .s dto.payOrderId), ("payOrderTime", optV dto.payOrderTime),
   ("sign", .s dto.sign)]

/-- `verifyCallbackSignature`: delete the `sign` field from a copy of the
payload, recompute the signature, and compare (`===`, case-sensitive) with
the claimed one. Total: returns `false` rather than failing on any input. -/
def verifyCallbackSignature (dto : CallbackDto) (signKey : String) : Bool :=
  let params := (dtoParams dto).filter (fun kv => kv.1 != "sign")
  let expectedSign := generateSign params signKey
  expectedSign == dto.sign

/-! ## Status enums -/

/-- `CallbackStatusEnum` (string-valued provider status codes). -/
def CallbackStatusEnum.SUCCESS : String := "1"

/-- `CallbackStatusEnum.FAILED`. -/
def CallbackStatusEnum.FAILED : String := "2"

/-- `CallbackStatusEnum.PROCESSING`. -/
def CallbackStatusEnum.PROCESSING : String := "0"

/-- `CallbackStatusEnum.MANUAL_SUCCESS`. -/
def CallbackStatusEnum.MANUAL_SUCCESS : String := "3"

/-- `isSuccessStatus`: the provider status code is interpreted as success iff
it is `1` (success) or `3` (manual success). -/
def isSuccessStatus (status : String) : Bool :=
  status == CallbackStatusEnum.SUCCESS || status == CallbackStatusEnum.MANUAL_SUCCESS

/-- The deposit status lifecycle. The enum itself (`DepositStatusEnum`) lives
in the shared library `@kob-bank/common`; the values used by this repository
are `PENDING`, `SUCCESSED` and `FAILED`, matching the spec's
PENDING → SUCCESS | FAILED deposit lifecycle. -/
inductive DepositStatus where
  | PENDING
  | SUCCESSED
  | FAILED
deriving DecidableEq, Repr

/-- A deposit status is terminal iff it is SUCCESSED or FAILED. -/
def DepositStatus.isTerminal : DepositStatus → Bool
  | .PENDING => false
  | .SUCCESSED => true
  | .FAILED => true

/-- `WithdrawStatusEnum` (`enum/withdraw-status.enum.ts`). -/
inductive WithdrawStatus where
  | PENDING
  | PROCESSING
  | SUCCESS
  | FAILED
deriving DecidableEq, Repr

/-- A withdraw status is terminal iff it is SUCCESS or FAILED. -/
def WithdrawStatus.isTerminal : WithdrawStatus → Bool
  | .PENDING => false
  | .PROCESSING => false
  | .SUCCESS => true
  | .FAILED => true

/-! ## Number parsing used by the callback handlers -/

/-- The numeric value of a digit list (most significant first). -/
def digitsToNat (cs : List Char) : Nat :=
  cs.foldl (fun acc c => 10 * acc + (c.toNat - 48)) 0

/-- `parseFloat(s) || 0` for the plain decimal numerals carried by callbacks
(`"100.00"`, `"2.00"`, ...): parse an optional sign, an integer part and an
optional fraction; an input with no leading digits (parseFloat `NaN`) yields
`0`, as does an absent field. -/
def jsParseFloatOr0 (s : String) : ℚ :=
  let cs := s.data
  let neg := cs.head? = some '-'
  let cs := if neg then cs.drop 1 else cs
  let ip := cs.takeWhile Char.isDigit
  if ip.isEmpty then 0
  else
    let rest := cs.drop ip.length
    let fp := match rest with
      | '.' :: t => t.takeWhile Char.isDigit
      | _ => []
    let v : ℚ := (digitsToNat ip : ℚ) + (digitsToNat fp : ℚ) / 10 ^ fp.length
    if neg then -v else v

/-! ## Transaction records and stores

The Mongo collections are modelled as lists of records; `updateOne({_id}, u)`
is modelled as mapping the update over the list, guarded by the id. The
repository operations of `@kob-bank/common` (`DepositRepository`) are library
code not part of this repository; they are modelled from the spec where
noted. -/

/-- A deposit row (`deposit.schema.ts` plus the spec's provider-error fields
recorded by `markRequestRejected`). `mid` models Mongo's `_id`. -/
structure Deposit where
  mid : Nat
  merchantId : String := ""
  agentId : String := ""
  site : String := ""
  customerId : String := ""
  amount : ℚ := 0
  callback : String := ""
  gatewayId : String := ""
  paymentMethods : String := ""
  payee : Option String := none
  payAmount : Option ℚ := none
  qrCode : Option String := none
  systemRef : Option String := none
  systemOrderNo : Option String := none
  fee : Option ℚ := none
  expiredAt : Option Nat := none
  successedAt : Option Nat := none
  status : DepositStatus
  paymentStatus : Option String := none
  creditAmount : Option ℚ := none
  errorCode : Option String := none
  errorMessage : Option String := none
deriving DecidableEq, Repr

/-- The deposit collection. -/
abbrev DepositStore : Type := List Deposit

/-- A withdraw row (`Withdraw` schema; `completedAt` is the field written by
the success branch of `handleCallback`). -/
structure Withdraw where
  mid : Nat
  merchantId : String := ""
  agentId : String := ""
  site : String := ""
  customerId : String := ""
  amount : ℚ := 0
  callback : String := ""
  gatewayId : String := ""
  bankName : String := ""
  bankAccount : String := ""
  bankAccountName : String := ""
  systemRef : Option String := none
  systemOrderNo : String
  fee : Option ℚ := none
  status : WithdrawStatus
  paymentStatus : Option String := none
  withdrawAmount : Option ℚ := none
  completedAt : Option Nat := none
deriving DecidableEq, Repr

/-- The withdraw collection. -/
abbrev WithdrawStore : Type := List Withdraw

/-- Modelled from the spec: `DepositRepository.findOneBySystemOrderNo`
(library code missing from this repository) is §4.3's `findByOrderNo`,
returning the row whose `systemOrderNo` equals the argument. -/
def findOneBySystemOrderNo (store : DepositStore) (orderNo : String) :
    Option Deposit :=
  store.find? (fun d => d.systemOrderNo == some orderNo)

/-- `withdrawModel.findOne({ systemOrderNo })`. -/
def findWithdrawByOrderNo (store : WithdrawStore) (orderNo : String) :
    Option Withdraw :=
  store.find? (fun w => w.systemOrderNo == orderNo)

/-- `updateOne({_id: id}, ...)` on the deposit collection: apply the update
to every row with the given id (ids are unique in Mongo). -/
def updateDepositById (store : DepositStore) (id : Nat) (f : Deposit → Deposit) :
    DepositStore :=
  store.map (fun d => if d.mid = id then f d else d)

/-- `updateOne({_id: id}, ...)` on the withdraw collection. -/
def updateWithdrawById (store : WithdrawStore) (id : Nat) (f : Withdraw → Withdraw) :
    WithdrawStore :=
  store.map (fun w => if w.mid = id then f w else w)

/-! ## Callback reconciliation -/

/-- The `UpdatePaymentInterface` object built by `PaymentService.callback`. -/
structure UpdatePaymentInterface where
  successedAt : Option Nat
  status : DepositStatus
  creditAmount : ℚ
  fee : ℚ
  paymentStatus : String
deriving DecidableEq, Repr

/-- Modelled from the spec: `DepositRepository.updatePayment` (library code
missing from this repository) writes the settlement update — terminal status
together with credited amount and fee — onto the row (§3: "a settlement
update is written atomically with the terminal status change"). A JS
`undefined` value (`successedAt` on the failure path) leaves the stored field
untouched. -/
def applyUpdatePayment (u : UpdatePaymentInterface) (d : Deposit) : Deposit :=
  { d with
    status := u.status,
    creditAmount := some u.creditAmount,
    fee := some u.fee,
    paymentStatus := some u.paymentStatus,
    successedAt := match u.successedAt with
      | some t => some t
      | none => d.successedAt }

/-- The update object `PaymentService.callback` builds from a callback
payload (`now` models `new Date()`). -/
def depositCallbackUpdate (dto : CallbackDto) (now : Nat) : UpdatePaymentInterface :=
  let isSuccess := isSuccessStatus dto.orderStatus
  { successedAt := if isSuccess then some now else none,
    status := if isSuccess then .SUCCESSED else .FAILED,
    creditAmount := jsParseFloatOr0 dto.orderAmount,
    fee := jsParseFloatOr0 (dto.fee.getD ""),
    paymentStatus := dto.orderStatus }

/-- The errors a callback handler can signal: `UnauthorizedException`
(invalid signature) and `NotFoundException` (unknown order). -/
inductive CbError where
  | unauthorized
  | notFound
deriving DecidableEq, Repr

/-- An observable store operation performed by a callback handler, recorded
in order: the `findOne` lookup and the `updateOne` write. -/
inductive StoreOp where
  | lookup (orderNo : String)
  | update (id : Nat)
deriving DecidableEq, Repr

deriving instance DecidableEq for Except

/-- Outcome of a callback handler: the HTTP result (the literal `"success"`
acknowledgement or a thrown error), the store after the call, and the trace
of store operations it performed. -/
structure CbResult (σ : Type) where
  result : Except CbError String
  store : σ
  trace : List StoreOp
deriving DecidableEq, Repr

/-- The read step of `PaymentService.callback`: `findOneBySystemOrderNo`. -/
def depositReadPhase (store : DepositStore) (orderNo : String) : Option Deposit :=
  findOneBySystemOrderNo store orderNo

/-- The write step of `PaymentService.callback`: guarded on the status of the
row *snapshot* obtained by the read step, then `updateOne` filtered only by
`_id`. Returns the new store and whether a write was performed. -/
def depositWritePhase (store : DepositStore) (snapshot : Deposit)
    (dto : CallbackDto) (now : Nat) : DepositStore × Bool :=
  if snapshot.status = .PENDING then
    (updateDepositById store snapshot.mid
      (applyUpdatePayment (depositCallbackUpdate dto now)), true)
  else (store, false)

/-- `PaymentService.callback`: verify the signature (reject with
`UnauthorizedException` before any store access), look the order up (reject
with `NotFoundException` when absent), apply the terminal update only when
the row is still PENDING, and in every remaining case return the literal
acknowledgement string `"success"`. -/
def depositCallback (store : DepositStore) (dto : CallbackDto)
    (signKey : String) (now : Nat) : CbResult DepositStore :=
  if verifyCallbackSignature dto signKey then
    match depositReadPhase store dto.orderNo with
    | none => ⟨.error .notFound, store, [.lookup dto.orderNo]⟩
    | some tx =>
        let (store2, wrote) := depositWritePhase store tx dto now
        ⟨.ok "success", store2,
         if wrote then [.lookup dto.orderNo, .update tx.mid]
         else [.lookup dto.orderNo]⟩
  else ⟨.error .unauthorized, store, []⟩

/-- The update object `WithdrawService.handleCallback` builds (`completedAt`
is only set on success; `now` models `new Date()`). -/
def withdrawCallbackUpdate (dto : CallbackDto) (now : Nat) (w : Withdraw) :
    Withdraw :=
  let isSuccess := isSuccessStatus dto.orderStatus
  { w with
    status := if isSuccess then .SUCCESS else .FAILED,
    withdrawAmount := some (jsParseFloatOr0 dto.orderAmount),
    fee := some (jsParseFloatOr0 (dto.fee.getD "")),
    paymentStatus := some dto.orderStatus,
    completedAt := if isSuccess then some now else w.completedAt }

/-- The read step of `WithdrawService.handleCallback`. -/
def withdrawReadPhase (store : WithdrawStore) (orderNo : String) : Option Withdraw :=
  findWithdrawByOrderNo store orderNo

/-- The write step of `WithdrawService.handleCallback`: guard on the snapshot
status (PENDING or PROCESSING), then `updateOne` filtered only by `_id`. -/
def withdrawWritePhase (store : WithdrawStore) (snapshot : Withdraw)
    (dto : CallbackDto) (now : Nat) : WithdrawStore × Bool :=
  if snapshot.status = .PENDING ∨ snapshot.status = .PROCESSING then
    (updateWithdrawById store snapshot.mid (withdrawCallbackUpdate dto now), true)
  else (store, false)

/-- `WithdrawService.handleCallback`: same shape as the deposit callback with
the non-terminal guard extended to PROCESSING. -/
def withdrawHandleCallback (store : WithdrawStore) (dto : CallbackDto)
    (signKey : String) (now : Nat) : CbResult WithdrawStore :=
  if verifyCallbackSignature dto signKey then
    match withdrawReadPhase store dto.orderNo with
    | none => ⟨.error .notFound, store, [.lookup dto.orderNo]⟩
    | some w =>
        let (store2, wrote) := withdrawWritePhase store w dto now
        ⟨.ok "success", store2,
         if wrote then [.lookup dto.orderNo, .update w.mid]
         else [.lookup dto.orderNo]⟩
  else ⟨.error .unauthorized, store, []⟩

/-! ## Request orchestration

The provider's HTTP answer (or the failure to obtain one) is passed in as an
explicit `ProviderOutcome`; the outbound payload construction and its
signature are not themselves store-relevant and are not modelled. -/

/-- The provider's answer to a creation request: a JSON response
(`respCode`, `respMsg`, and for deposits `type`/`info`/`payOrderNo`), or a
network/timeout failure (an `AxiosError`). -/
inductive ProviderOutcome where
  | resp (respCode respMsg ty info payOrderNo : String)
  | network (msg : String)
deriving DecidableEq, Repr

/-- The errors an initiation path can surface: `ProviderRejectedException`
(provider answered with a non-success code) or `UpstreamErrorException`
(network/timeout, "we don't know"). -/
inductive ReqError where
  | providerRejected (msg : String)
  | upstream (msg : String)
deriving DecidableEq, Repr

/-- JS `a || b` on strings: the fallback applies when `a` is empty (falsy). -/
def jsOrElse (a b : String) : String := if a == "" then b else a

/-- The deposit-creation request after DTO validation:
`GenericProviderDepositReqDto<CopoProviderParams>` flattened. -/
structure DepositReqDto where
  site : String
  username : String
  amount : ℚ
  callbackURL : String
  resultURL : Option String := none
  gatewayId : String
  merchantId : String
  signKey : Option String := none
deriving DecidableEq, Repr

/-- The success payload `requestPayment` returns to its caller. -/
structure DepositRespData where
  id : Nat
  merchantRef : String
  systemRef : String
  payee : String
  payAmount : ℚ
  qrCode : String
  expiredDate : Nat
deriving DecidableEq, Repr

/-- The deposit order number `COP<site><timestamp>` (`Date.now()` passed as
`now`). -/
def depositOrderNo (site : String) (now : Nat) : String :=
  "COP" ++ site ++ toString now

/-- The withdraw order number `COP_WITHDRAW_<site>_<timestamp>`. -/
def withdrawOrderNo (site : String) (now : Nat) : String :=
  "COP_WITHDRAW_" ++ site ++ "_" ++ toString now

/-- Modelled from the spec: `DepositRepository.paymentCreateFailed` (library
code missing from this repository) is §4.3's `markRequestRejected`: "sets
status = FAILED; records provider error code/message; terminal". -/
def paymentCreateFailed (errorCode errorMessage : String) (d : Deposit) : Deposit :=
  { d with status := .FAILED,
           errorCode := some errorCode,
           errorMessage := some errorMessage }

/-- The field object passed to `DepositRepository.paymentCreated`. -/
structure PaymentCreatedFields where
  payee : String
  payAmount : ℚ
  qrCode : String
  systemRef : String
  systemOrderNo : String
  fee : ℚ
  expiredAt : Nat
deriving DecidableEq, Repr

/-- Modelled from the spec: `DepositRepository.paymentCreated` (library code
missing from this repository) is §4.3's `markRequestAccepted`: "sets
`providerRef` and any preview fields (e.g., provisional pay URL, expiry);
status unchanged (still PENDING) — this call never transitions status to a
terminal value". -/
def paymentCreated (f : PaymentCreatedFields) (d : Deposit) : Deposit :=
  { d with payee := some f.payee,
           payAmount := some f.payAmount,
           qrCode := some f.qrCode,
           systemRef := some f.systemRef,
           systemOrderNo := some f.systemOrderNo,
           fee := some f.fee,
           expiredAt := some f.expiredAt }

/-- The fixed 15-minute validity window for the provisional pay URL, in
milliseconds (`dayjs().add(15, 'minutes')`). -/
def fifteenMinutesMs : Nat := 900000

/-- The row `PaymentService.requestPayment` passes to the repository
`create` call: the request fields, payment method QR, and — modelled from
the spec (§4.3 `create`, the repository is library code) — the initial
status PENDING. `freshId` models the Mongo id assigned on insert. -/
def newDepositRow (dto : DepositReqDto) (freshId : Nat) : Deposit :=
  { mid := freshId,
    merchantId := dto.site,
    agentId := dto.site,
    site := dto.site,
    customerId := dto.username,
    amount := dto.amount,
    callback := dto.callbackURL,
    gatewayId := dto.gatewayId,
    paymentMethods := "QR",
    status := .PENDING }

/-- `PaymentService.requestPayment`: create the PENDING row, generate
`COP<site><timestamp>`, call the provider, then either record acceptance
(`paymentCreated`), record rejection (`paymentCreateFailed` and raise
`ProviderRejectedException`), or wrap a network failure as
`UpstreamErrorException` (leaving the fresh row PENDING). `now` models
`Date.now()`. -/
def requestPayment (store : DepositStore) (dto : DepositReqDto)
    (freshId now : Nat) (provider : ProviderOutcome) :
    Except ReqError DepositRespData × DepositStore :=
  let tx := newDepositRow dto freshId
  let store1 := store ++ [tx]
  let orderNo := depositOrderNo dto.site now
  match provider with
  | .network msg => (.error (.upstream (jsOrElse msg "Unknown error")), store1)
  | .resp respCode respMsg ty info payOrderNo =>
      if respCode ≠ "000" then
        let msg := jsOrElse respMsg "Payment creation failed"
        (.error (.providerRejected msg),
         updateDepositById store1 freshId (paymentCreateFailed respCode msg))
      else
        let expiredAt := now + fifteenMinutesMs
        let paymentUrl := if ty == "url" then info else ""
        let fields : PaymentCreatedFields :=
          { payee := dto.username,
            payAmount := dto.amount,
            qrCode := paymentUrl,
            systemRef := payOrderNo,
            systemOrderNo := orderNo,
            fee := 0,
            expiredAt := expiredAt }
        (.ok { id := freshId,
               merchantRef := orderNo,
               systemRef := payOrderNo,
               payee := dto.username,
               payAmount := dto.amount,
               qrCode := paymentUrl,
               expiredDate := expiredAt },
         updateDepositById store1 freshId (paymentCreated fields))

/-- The withdraw-creation request (`WithdrawReqDto`). -/
structure WithdrawReqDto where
  site : String
  username : String
  amount : ℚ
  callbackURL : String
  gatewayId : String
  merchantId : String
  bankName : String
  bankAccount : String
  bankAccountName : String
  signKey : String
deriving DecidableEq, Repr

/-- The success payload `createWithdraw` returns to its caller. -/
structure WithdrawRespData where
  withdrawId : Nat
  systemRef : String
  orderNo : String
  fee : ℚ
  statusCode : Nat
deriving DecidableEq, Repr

/-- The row `WithdrawService.createWithdraw` inserts: the request fields,
the generated order number, and status PENDING (set explicitly in the
source). -/
def newWithdrawRow (dto : WithdrawReqDto) (freshId now : Nat) : Withdraw :=
  { mid := freshId,
    merchantId := dto.merchantId,
    agentId := dto.site,
    site := dto.site,
    customerId := dto.username,
    amount := dto.amount,
    callback := dto.callbackURL,
    gatewayId := dto.gatewayId,
    bankName := dto.bankName,
    bankAccount := dto.bankAccount,
    bankAccountName := dto.bankAccountName,
    systemOrderNo := withdrawOrderNo dto.site now,
    status := .PENDING }

/-- `WithdrawService.createWithdraw`: create the PENDING row with
`COP_WITHDRAW_<site>_<timestamp>` as `systemOrderNo`, call the provider via
`CopoService.createPayout` (which raises `ProviderRejectedException` on a
non-`000` code and `UpstreamErrorException` on a network failure — both
rethrown unchanged by the catch block), and on success set `systemRef` and
move the row to PROCESSING. Note the rejection path performs no store
update: the row stays PENDING. -/
def createWithdraw (store : WithdrawStore) (dto : WithdrawReqDto)
    (freshId now : Nat) (provider : ProviderOutcome) :
    Except ReqError WithdrawRespData × WithdrawStore :=
  let orderNo := withdrawOrderNo dto.site now
  let w := newWithdrawRow dto freshId now
  let store1 := store ++ [w]
  match provider with
  | .network msg => (.error (.upstream (jsOrElse msg "Unknown error")), store1)
  | .resp respCode respMsg _ _ payOrderNo =>
      if respCode ≠ "000" then
        (.error (.providerRejected (jsOrElse respMsg "Payout creation failed")),
         store1)
      else
        (.ok { withdrawId := freshId,
               systemRef := payOrderNo,
               orderNo := orderNo,
               fee := 0,
               statusCode := 201 },
         updateWithdrawById store1 freshId
           (fun x => { x with systemRef := some payOrderNo,
                              status := .PROCESSING }))

/-! ## The unified callback endpoint -/

/-- `String.prototype.includes`: `sub` occurs as a contiguous substring.
Defined structurally over character lists so it evaluates in the kernel. -/
def containsSubstring (s sub : String) : Bool :=
  go sub.data s.data
where
  /-- Walk the haystack, testing `sub` as a prefix at every position. -/
  go (needle : List Char) : List Char → Bool
    | [] => needle.isEmpty
    | c :: cs => List.isPrefixOf needle (c :: cs) || go needle cs

/-- Which service the unified `/callback` endpoint hands the payload to. -/
inductive HandlerChoice where
  | withdraw
  | deposit
deriving DecidableEq, Repr

/-- `AppController.callbackPost` / `callbackGet`: a callback is routed to the
withdraw handler iff its `orderNo` contains the substring `WITHDRAW`,
otherwise to the deposit handler. -/
def dispatch (dto : CallbackDto) : HandlerChoice :=
  if containsSubstring dto.orderNo "WITHDRAW" then .withdraw else .deposit

/-! ## Lookup by id and concrete fixtures -/

/-- The deposit row with the given Mongo id. -/
def findDepositById (store : DepositStore) (id : Nat) : Option Deposit :=
  store.find? (fun d => d.mid == id)

/-- The withdraw row with the given Mongo id. -/
def findWithdrawById (store : WithdrawStore) (id : Nat) : Option Withdraw :=
  store.find? (fun w => w.mid == id)

/-- A concrete PENDING deposit row for the concrete instances below. -/
def sampleDeposit : Deposit :=
  { mid := 1, systemOrderNo := some "COPs9", status := .PENDING }

/-- A concrete PENDING withdraw row for the concrete instances below. -/
def sampleWithdraw : Withdraw :=
  { mid := 1, systemOrderNo := "COP_WITHDRAW_s_9", status := .PENDING }

/-- A concrete callback payload for an order, correctly signed under the key
`"KEY"`: its `sign` field is `generateSign` applied to the other ten fields. -/
def signedDto (orderNo status : String) : CallbackDto :=
  { accessType := "1", merchantId := "M", orderAmount := "10",
    orderNo := orderNo, orderStatus := status, payOrderId := "Z",
    sign := generateSign
      [("accessType", .s "1"), ("fee", .null), ("language", .null),
       ("merchantId", .s "M"), ("orderAmount", .s "10"),
       ("orderNo", .s orderNo), ("orderStatus", .s status),
       ("orderTime", .null), ("payOrderId", .s "Z"),
       ("payOrderTime", .null)] "KEY" }

/-- A concrete deposit-creation request. -/
def sampleDepositReq : DepositReqDto :=
  { site := "s", username := "u", amount := 100, callbackURL := "cb",
    gatewayId := "g", merchantId := "m" }

/-- A concrete withdraw-creation request. -/
def sampleWithdrawReq : WithdrawReqDto :=
  { site := "s", username := "u", amount := 100, callbackURL := "cb",
    gatewayId := "g", merchantId := "m", bankName := "b", bankAccount := "a",
    bankAccountName := "n", signKey := "k" }

/-! ## Order and sorting lemmas for the Signer -/

theorem char_toNat_inj {a b : Char} (h : a.toNat = b.toNat) : a = b := by
  exact_mod_cast Char.ofNat_toNat a ▸ Char.ofNat_toNat b ▸ congrArg Char.ofNat h

theorem charListLe_total : ∀ as bs : List Char,
    charListLe as bs = true ∨ charListLe bs as = true := by
  intro as
  induction as with
  | nil => intro bs; left; rfl
  | cons a as ih =>
    intro bs
    cases bs with
    | nil => right; rfl
    | cons b bs =>
      simp only [charListLe]
      rcases Nat.lt_trichotomy a.toNat b.toNat with h | h | h
      · left; simp [h]
      · have h1 : ¬ a.toNat < b.toNat := by omega
        have h2 : ¬ b.toNat < a.toNat := by omega
        simp only [h1, h2, if_false]
        exact ih bs
      · right; simp [h]

theorem charListLe_trans : ∀ as bs cs : List Char,
    charListLe as bs = true → charListLe bs cs = true →
    charListLe as cs = true := by
  intro as
  induction as with
  | nil => intro bs cs _ _; rfl
  | cons a as ih =>
    intro bs cs hab hbc
    cases bs with
    | nil => simp [charListLe] at hab
    | cons b bs =>
      cases cs with
      | nil => simp [charListLe] at hbc
      | cons c cs =>
        simp only [charListLe] at hab hbc ⊢
        by_cases h1 : a.toNat < b.toNat
        · by_cases h2 : b.toNat < c.toNat
          · simp [show a.toNat < c.toNat by omega]
          · by_cases h2' : c.toNat < b.toNat
            · simp [h2, h2'] at hbc
            · simp [show a.toNat < c.toNat by omega]
        · by_cases h1' : b.toNat < a.toNat
          · simp [h1, h1'] at hab
          · simp only [h1, h1', if_false] at hab
            by_cases h2 : b.toNat < c.toNat
            · simp [show a.toNat < c.toNat by omega]
            · by_cases h2' : c.toNat < b.toNat
              · simp [h2, h2'] at hbc
              · simp only [h2, h2', if_false] at hbc
                have h3 : ¬ a.toNat < c.toNat := by omega
                have h3' : ¬ c.toNat < a.toNat := by omega
                simp only [h3, h3', if_false]
                exact ih bs cs hab hbc

theorem charListLe_antisymm : ∀ as bs : List Char,
    charListLe as bs = true → charListLe bs as = true → as = bs := by
  intro as
  induction as with
  | nil =>
    intro bs _ h2
    cases bs with
    | nil => rfl
    | cons b bs => simp [charListLe] at h2
  | cons a as ih =>
    intro bs h1 h2
    cases bs with
    | nil => simp [charListLe] at h1
    | cons b bs =>
      by_cases ha : a.toNat < b.toNat
      · have hb : ¬ b.toNat < a.toNat := by omega
        simp [charListLe, ha, hb] at h2
      · by_cases hb : b.toNat < a.toNat
        · simp [charListLe, ha, hb] at h1
        · have hab : a = b := char_toNat_inj (by omega)
          subst hab
          simp only [charListLe, ha, hb, if_false] at h1 h2
          rw [ih bs h1 h2]

instance : IsTotal String strLe := ⟨fun a b => charListLe_total a.data b.data⟩

instance : IsTrans String strLe :=
  ⟨fun a b c => charListLe_trans a.data b.data c.data⟩

instance : IsAntisymm String strLe :=
  ⟨fun a b h1 h2 => String.ext (charListLe_antisymm a.data b.data h1 h2)⟩

instance : IsTotal (String × String) pairKeyLe :=
  ⟨fun p q => charListLe_total p.1.data q.1.data⟩

instance : IsTrans (String × String) pairKeyLe :=
  ⟨fun p q r => charListLe_trans p.1.data q.1.data r.1.data⟩

/-- Sorting the (key, value) pairs by key and projecting to the keys agrees
with sorting the projected keys: the bridge between the spec's step order and
the code's `Object.keys(...).sort()`. -/
theorem map_fst_insertionSort_keys (fp : List (String × String)) :
    (List.insertionSort pairKeyLe fp).map Prod.fst
      = List.insertionSort strLe (fp.map Prod.fst) := by
  refine List.eq_of_perm_of_sorted (r := strLe) ?_ ?_ ?_
  · exact ((List.perm_insertionSort pairKeyLe fp).map Prod.fst).trans
      (List.perm_insertionSort strLe (fp.map Prod.fst)).symm
  · exact List.Pairwise.map Prod.fst (fun _ _ h => h)
      (List.sorted_insertionSort pairKeyLe fp)
  · exact List.sorted_insertionSort strLe (fp.map Prod.fst)

/-- The keys of the filtered parameter object are those of the filtered input
list. -/
theorem filteredParams_map_fst (params : List (String × PVal)) :
    (filteredParams params).map Prod.fst
      = (params.filter (fun kv => kv.2.keep && kv.1 != "sign")).map Prod.fst := by
  unfold filteredParams
  rw [List.map_map]
  rfl

/-- Distinct input keys give distinct keys after filtering. -/
theorem filteredParams_keys_nodup (params : List (String × PVal))
    (hnd : (params.map Prod.fst).Nodup) :
    ((filteredParams params).map Prod.fst).Nodup := by
  rw [filteredParams_map_fst]
  exact List.Nodup.sublist (List.Sublist.map Prod.fst (List.filter_sublist params)) hnd

/-- With distinct keys, object indexing returns the value stored with the
key. -/
theorem lookupD_eq_of_mem {l : List (String × String)} {k v : String}
    (hnd : (l.map Prod.fst).Nodup) (h : (k, v) ∈ l) : lookupD l k = v := by
  induction l with
  | nil => cases h
  | cons p l ih =>
    rcases List.mem_cons.mp h with heq | hmem
    · subst heq
      simp [lookupD]
    · have hk : (p.1 == k) = false := by
        have hkmem : k ∈ l.map Prod.fst := List.mem_map.mpr ⟨(k, v), hmem, rfl⟩
        have hp1 : p.1 ∉ l.map Prod.fst := by
          rw [List.map_cons] at hnd
          exact (List.nodup_cons.mp hnd).1
        exact beq_eq_false_iff_ne.mpr (fun hpk => hp1 (hpk ▸ hkmem))
      have htl : (l.map Prod.fst).Nodup := by
        rw [List.map_cons] at hnd
        exact (List.nodup_cons.mp hnd).2
      simpa [lookupD, List.find?, hk] using ih htl hmem

/-- On a parameter mapping (distinct keys), the sign string the code builds
by sorting the keys and indexing back into the object equals the sign string
the spec words as sorting the (key, value) pairs. -/
theorem signString_eq_specSignString (params : List (String × PVal))
    (signKey : String) (hnd : (params.map Prod.fst).Nodup) :
    signString params signKey = specSignString params signKey := by
  simp only [signString, specSignString]
  have hfp := filteredParams_keys_nodup params hnd
  suffices h :
      (List.insertionSort strLe ((filteredParams params).map Prod.fst)).map
          (fun k => k ++ "=" ++ lookupD (filteredParams params) k)
        = (List.insertionSort pairKeyLe (filteredParams params)).map
          (fun kv => kv.1 ++ "=" ++ kv.2) by
    rw [h]
  rw [← map_fst_insertionSort_keys, List.map_map]
  apply List.map_congr_left
  intro p hp
  have hpfp : p ∈ filteredParams params :=
    (List.perm_insertionSort pairKeyLe (filteredParams params)).subset hp
  show p.1 ++ "=" ++ lookupD (filteredParams params) p.1 = p.1 ++ "=" ++ p.2
  rw [lookupD_eq_of_mem hfp (by simpa using hpfp)]

/-! ## The MD5 hex digest is already lowercase -/

theorem toLower_hexDigit (n : Nat) (h : n < 16) :
    Char.toLower (hexDigit n) = hexDigit n := by
  interval_cases n <;> decide

theorem mem_md5Bytes_lt (msg : List Nat) : ∀ b ∈ md5Bytes msg, b < 256 := by
  intro b hb
  simp only [md5Bytes, leBytes, List.mem_append, List.mem_cons,
    List.not_mem_nil, or_false] at hb
  rcases hb with ((h | h | h | h) | (h | h | h | h)) | (h | h | h | h) | (h | h | h | h) <;>
    omega

theorem jsToLowerCase_md5Hex (s : String) :
    jsToLowerCase (md5Hex s) = md5Hex s := by
  simp only [jsToLowerCase, md5Hex]
  congr 1
  rw [List.map_flatten, List.map_map]
  congr 1
  apply List.map_congr_left
  intro b hb
  have hlt := mem_md5Bytes_lt (strBytes s) b hb
  show (hexByte b).map Char.toLower = hexByte b
  simp [hexByte, toLower_hexDigit (b / 16) (by omega), toLower_hexDigit (b % 16) (by omega)]

/-! ## C1 -/

/-- C1: for every parameter mapping and secret key, `generateSign` returns
exactly the lowercase hexadecimal MD5 digest of the string built by dropping
empty/null/absent values and the `sign` entry, stringifying the remaining
values, sorting the remaining keys in ascending ASCII order, joining them as
`key1=value1&key2=value2&...`, and appending `&Key=<secretKey>`; in
particular, signing `{merchantId: "M1", orderAmount: "100.00"}` with key
`"K"` gives the MD5 hex of `"merchantId=M1&orderAmount=100.00&Key=K"`. -/
theorem generateSign_is_md5_of_specSignString :
    (∀ params signKey, (params.map Prod.fst).Nodup →
        generateSign params signKey = md5Hex (specSignString params signKey))
    ∧ generateSign [("merchantId", .s "M1"), ("orderAmount", .s "100.00")] "K"
        = md5Hex "merchantId=M1&orderAmount=100.00&Key=K"
    ∧ md5Hex "merchantId=M1&orderAmount=100.00&Key=K"
        = "69ede19aeaa1f649300e4b560feaa9c7" := by
  refine ⟨fun params signKey hnd => ?_, by decide, by decide⟩
  unfold generateSign
  rw [signString_eq_specSignString params signKey hnd, jsToLowerCase_md5Hex]

/-- Witness for C1: the universally quantified part applied to the concrete
scenario-1 mapping, whose keys are distinct. -/
theorem generateSign_is_md5_of_specSignString_witness :
    (([("merchantId", PVal.s "M1"), ("orderAmount", PVal.s "100.00")].map
        Prod.fst).Nodup)
    ∧ generateSign [("merchantId", PVal.s "M1"), ("orderAmount", PVal.s "100.00")] "K"
        = md5Hex (specSignString
            [("merchantId", PVal.s "M1"), ("orderAmount", PVal.s "100.00")] "K") :=
  ⟨by decide,
   generateSign_is_md5_of_specSignString.1
     [("merchantId", PVal.s "M1"), ("orderAmount", PVal.s "100.00")] "K" (by decide)⟩

/-- A payload built by `signedDto` always verifies under `"KEY"`: its sign
field is the recomputed signature itself. -/
theorem verify_signedDto (orderNo status : String) :
    verifyCallbackSignature (signedDto orderNo status) "KEY" = true :=
  beq_self_eq_true _

/-! ## C5 -/

/-- C5: the Verifier returns true iff the signature recomputed by the Signer
over the payload minus its `sign` field equals the claimed signature, under
case-sensitive comparison: any difference — in particular a letter-case
difference, as in the two concrete payloads below whose claimed signatures
differ only in case — makes it return false. It is a total Boolean function:
it returns false rather than throwing on any input. -/
theorem verifyCallbackSignature_iff_signer_matches :
    (∀ dto signKey, verifyCallbackSignature dto signKey = true ↔
        generateSign ((dtoParams dto).filter (fun kv => kv.1 != "sign")) signKey
          = dto.sign)
    ∧ (∀ dto signKey,
        dto.sign ≠ generateSign ((dtoParams dto).filter (fun kv => kv.1 != "sign"))
            signKey →
        verifyCallbackSignature dto signKey = false)
    ∧ verifyCallbackSignature { signedDto "COPx1" "1" with
        sign := "36C78174C19A2AA5FAB136FFD1505371" } "KEY" = false
    ∧ verifyCallbackSignature { signedDto "COPx1" "1" with
        sign := "36c78174c19a2aa5fab136ffd1505371" } "KEY" = true := by
  refine ⟨?_, ?_, by decide, by decide⟩
  · intro dto signKey
    simp only [verifyCallbackSignature]
    exact beq_iff_eq
  · intro dto signKey h
    simp only [verifyCallbackSignature]
    exact beq_eq_false_iff_ne.mpr (fun he => h he.symm)

/-- Witness for C5: the rejection part applied to a concrete payload whose
claimed signature is not the recomputed one. -/
theorem verifyCallbackSignature_iff_signer_matches_witness :
    ({ signedDto "COPx1" "1" with sign := "nope" }.sign
        ≠ generateSign ((dtoParams { signedDto "COPx1" "1" with sign := "nope" }).filter
            (fun kv => kv.1 != "sign")) "KEY")
    ∧ verifyCallbackSignature { signedDto "COPx1" "1" with sign := "nope" } "KEY"
        = false :=
  ⟨by decide,
   verifyCallbackSignature_iff_signer_matches.2.1
     { signedDto "COPx1" "1" with sign := "nope" } "KEY" (by decide)⟩

/-! ## C6 -/

/-- C6: a callback whose signature fails verification is rejected with the
authorization error before any store access: the store is unchanged and the
operation trace is empty (no lookup of the order), and the response is a
constant, independent of the store contents, so it cannot reveal whether the
referenced order exists; a valid signature with an unknown order produces the
distinct not-found error. -/
theorem invalid_signature_discarded_without_lookup :
    (∀ store dto signKey now, verifyCallbackSignature dto signKey = false →
        depositCallback store dto signKey now
          = ⟨.error .unauthorized, store, []⟩)
    ∧ (∀ store dto signKey now, verifyCallbackSignature dto signKey = false →
        withdrawHandleCallback store dto signKey now
          = ⟨.error .unauthorized, store, []⟩)
    ∧ (∀ store dto signKey now, verifyCallbackSignature dto signKey = true →
        findOneBySystemOrderNo store dto.orderNo = none →
        depositCallback store dto signKey now
          = ⟨.error .notFound, store, [.lookup dto.orderNo]⟩)
    ∧ (∀ store dto signKey now, verifyCallbackSignature dto signKey = true →
        findWithdrawByOrderNo store dto.orderNo = none →
        withdrawHandleCallback store dto signKey now
          = ⟨.error .notFound, store, [.lookup dto.orderNo]⟩)
    ∧ CbError.notFound ≠ CbError.unauthorized := by
  refine ⟨?_, ?_, ?_, ?_, by decide⟩
  · intro store dto signKey now h
    simp [depositCallback, h]
  · intro store dto signKey now h
    simp [withdrawHandleCallback, h]
  · intro store dto signKey now hv hf
    simp [depositCallback, depositReadPhase, hv, hf]
  · intro store dto signKey now hv hf
    simp [withdrawHandleCallback, withdrawReadPhase, hv, hf]

/-- Witness for C6: a tampered signature is rejected with no lookup on a
concrete store, and a correctly signed callback for an unknown order gets the
distinct not-found error. -/
theorem invalid_signature_discarded_without_lookup_witness :
    (verifyCallbackSignature { signedDto "COPs9" "1" with sign := "bad" } "KEY"
        = false
     ∧ depositCallback [sampleDeposit] { signedDto "COPs9" "1" with sign := "bad" }
          "KEY" 3
        = ⟨.error .unauthorized, [sampleDeposit], []⟩)
    ∧ (verifyCallbackSignature (signedDto "COPnone" "1") "KEY" = true
       ∧ depositCallback [] (signedDto "COPnone" "1") "KEY" 3
          = ⟨.error .notFound, [], [.lookup "COPnone"]⟩) :=
  ⟨⟨by decide,
    invalid_signature_discarded_without_lookup.1 [sampleDeposit]
      { signedDto "COPs9" "1" with sign := "bad" } "KEY" 3 (by decide)⟩,
   ⟨by decide,
    invalid_signature_discarded_without_lookup.2.2.1 []
      (signedDto "COPnone" "1") "KEY" 3 (by decide) (by decide)⟩⟩

/-! ## Structural lemmas about the store operations -/

theorem applyUpdatePayment_mid (u : UpdatePaymentInterface) (d : Deposit) :
    (applyUpdatePayment u d).mid = d.mid := rfl

theorem applyUpdatePayment_systemOrderNo (u : UpdatePaymentInterface)
    (d : Deposit) : (applyUpdatePayment u d).systemOrderNo = d.systemOrderNo := rfl

theorem withdrawCallbackUpdate_mid (dto : CallbackDto) (now : Nat)
    (w : Withdraw) : (withdrawCallbackUpdate dto now w).mid = w.mid := rfl

theorem withdrawCallbackUpdate_systemOrderNo (dto : CallbackDto) (now : Nat)
    (w : Withdraw) :
    (withdrawCallbackUpdate dto now w).systemOrderNo = w.systemOrderNo := rfl

theorem updateDepositById_map_mid (s : DepositStore) (id : Nat)
    (f : Deposit → Deposit) (hf : ∀ x, (f x).mid = x.mid) :
    (updateDepositById s id f).map Deposit.mid = s.map Deposit.mid := by
  unfold updateDepositById
  rw [List.map_map]
  apply List.map_congr_left
  intro x _
  by_cases h : x.mid = id <;> simp [Function.comp, h, hf]

theorem updateWithdrawById_map_mid (s : WithdrawStore) (id : Nat)
    (f : Withdraw → Withdraw) (hf : ∀ x, (f x).mid = x.mid) :
    (updateWithdrawById s id f).map Withdraw.mid = s.map Withdraw.mid := by
  unfold updateWithdrawById
  rw [List.map_map]
  apply List.map_congr_left
  intro x _
  by_cases h : x.mid = id <;> simp [Function.comp, h, hf]

theorem mem_updateDepositById_of_ne {s : DepositStore} {id : Nat}
    {f : Deposit → Deposit} {d : Deposit} (hd : d ∈ s) (hne : d.mid ≠ id) :
    d ∈ updateDepositById s id f :=
  List.mem_map.mpr ⟨d, hd, by simp [hne]⟩

theorem mem_updateWithdrawById_of_ne {s : WithdrawStore} {id : Nat}
    {f : Withdraw → Withdraw} {w : Withdraw} (hw : w ∈ s) (hne : w.mid ≠ id) :
    w ∈ updateWithdrawById s id f :=
  List.mem_map.mpr ⟨w, hw, by simp [hne]⟩

theorem findOneBySystemOrderNo_mem {s : DepositStore} {o : String}
    {tx : Deposit} (h : findOneBySystemOrderNo s o = some tx) : tx ∈ s := by
  unfold findOneBySystemOrderNo at h
  exact List.mem_of_find?_eq_some h

theorem findWithdrawByOrderNo_mem {s : WithdrawStore} {o : String}
    {w : Withdraw} (h : findWithdrawByOrderNo s o = some w) : w ∈ s := by
  unfold findWithdrawByOrderNo at h
  exact List.mem_of_find?_eq_some h

/-- With a verified signature, `PaymentService.callback` is exactly: look the
order up; if absent raise not-found; if still PENDING apply the settlement
update by `_id`; in any remaining case acknowledge with `"success"`. -/
theorem depositCallback_eq (store : DepositStore) (dto : CallbackDto)
    (signKey : String) (now : Nat)
    (hv : verifyCallbackSignature dto signKey = true) :
    depositCallback store dto signKey now =
      match findOneBySystemOrderNo store dto.orderNo with
      | none => ⟨.error .notFound, store, [.lookup dto.orderNo]⟩
      | some tx =>
          if tx.status = .PENDING then
            ⟨.ok "success",
             updateDepositById store tx.mid
               (applyUpdatePayment (depositCallbackUpdate dto now)),
             [.lookup dto.orderNo, .update tx.mid]⟩
          else ⟨.ok "success", store, [.lookup dto.orderNo]⟩ := by
  unfold depositCallback depositReadPhase depositWritePhase
  cases hfind : findOneBySystemOrderNo store dto.orderNo with
  | none => simp [hv, hfind]
  | some tx =>
    by_cases hp : tx.status = .PENDING <;> simp [hv, hfind, hp]

/-- With a verified signature, `WithdrawService.handleCallback` is exactly:
look the order up; if absent raise not-found; if still PENDING or PROCESSING
apply the settlement update by `_id`; in any remaining case acknowledge with
`"success"`. -/
theorem withdrawHandleCallback_eq (store : WithdrawStore) (dto : CallbackDto)
    (signKey : String) (now : Nat)
    (hv : verifyCallbackSignature dto signKey = true) :
    withdrawHandleCallback store dto signKey now =
      match findWithdrawByOrderNo store dto.orderNo with
      | none => ⟨.error .notFound, store, [.lookup dto.orderNo]⟩
      | some w =>
          if w.status = .PENDING ∨ w.status = .PROCESSING then
            ⟨.ok "success",
             updateWithdrawById store w.mid (withdrawCallbackUpdate dto now),
             [.lookup dto.orderNo, .update w.mid]⟩
          else ⟨.ok "success", store, [.lookup dto.orderNo]⟩ := by
  unfold withdrawHandleCallback withdrawReadPhase withdrawWritePhase
  cases hfind : findWithdrawByOrderNo store dto.orderNo with
  | none => simp [hv, hfind]
  | some w =>
    by_cases hp : w.status = .PENDING ∨ w.status = .PROCESSING <;>
      simp [hv, hfind, hp]

/-! ## C2 -/

/-- C2: once a transaction is terminal no operation changes it again. A
terminal row is untouched — it is still present, identical, and no row ids
change — under any deposit callback and any withdraw callback, whatever the
callback contains; and the initiation paths (`requestPayment`,
`createWithdraw`), which write only to the freshly created row, leave every
pre-existing row untouched. -/
theorem terminal_transaction_never_mutated :
    (∀ (store : DepositStore) dto signKey now (d : Deposit),
        (store.map Deposit.mid).Nodup → d ∈ store →
        d.status.isTerminal = true →
        d ∈ (depositCallback store dto signKey now).store
          ∧ (depositCallback store dto signKey now).store.map Deposit.mid
              = store.map Deposit.mid)
    ∧ (∀ (store : WithdrawStore) dto signKey now (w : Withdraw),
        (store.map Withdraw.mid).Nodup → w ∈ store →
        w.status.isTerminal = true →
        w ∈ (withdrawHandleCallback store dto signKey now).store
          ∧ (withdrawHandleCallback store dto signKey now).store.map Withdraw.mid
              = store.map Withdraw.mid)
    ∧ (∀ (store : DepositStore) rdto freshId now provider (d : Deposit),
        freshId ∉ store.map Deposit.mid → d ∈ store →
        d ∈ (requestPayment store rdto freshId now provider).2)
    ∧ (∀ (store : WithdrawStore) wdto freshId now provider (w : Withdraw),
        freshId ∉ store.map Withdraw.mid → w ∈ store →
        w ∈ (createWithdraw store wdto freshId now provider).2) := by
  refine ⟨?_, ?_, ?_, ?_⟩
  · intro store dto signKey now d hnd hd hterm
    cases hv : verifyCallbackSignature dto signKey with
    | false =>
      simp only [depositCallback, hv, Bool.false_eq_true, if_false]
      exact ⟨hd, trivial⟩
    | true =>
      rw [depositCallback_eq store dto signKey now hv]
      cases hfind : findOneBySystemOrderNo store dto.orderNo with
      | none => exact ⟨hd, rfl⟩
      | some tx =>
        by_cases hp : tx.status = .PENDING
        · simp only [hp, if_true]
          have htx : tx ∈ store := findOneBySystemOrderNo_mem hfind
          have hne : d.mid ≠ tx.mid := by
            intro he
            have hdtx : d = tx := List.inj_on_of_nodup_map hnd hd htx he
            rw [hdtx, hp] at hterm
            simp [DepositStatus.isTerminal] at hterm
          exact ⟨mem_updateDepositById_of_ne hd hne,
                 updateDepositById_map_mid _ _ _ (fun _ => rfl)⟩
        · simp only [hp, if_false]
          exact ⟨hd, trivial⟩
  · intro store dto signKey now w hnd hw hterm
    cases hv : verifyCallbackSignature dto signKey with
    | false =>
      simp only [withdrawHandleCallback, hv, Bool.false_eq_true, if_false]
      exact ⟨hw, trivial⟩
    | true =>
      rw [withdrawHandleCallback_eq store dto signKey now hv]
      cases hfind : findWithdrawByOrderNo store dto.orderNo with
      | none => exact ⟨hw, rfl⟩
      | some wx =>
        by_cases hp : wx.status = .PENDING ∨ wx.status = .PROCESSING
        · simp only [hp, if_true]
          have hwx : wx ∈ store := findWithdrawByOrderNo_mem hfind
          have hne : w.mid ≠ wx.mid := by
            intro he
            have hwwx : w = wx := List.inj_on_of_nodup_map hnd hw hwx he
            rcases hp with hp | hp <;>
              · rw [hwwx, hp] at hterm
                simp [WithdrawStatus.isTerminal] at hterm
          exact ⟨mem_updateWithdrawById_of_ne hw hne,
                 updateWithdrawById_map_mid _ _ _ (fun _ => rfl)⟩
        · simp only [hp, if_false]
          exact ⟨hw, trivial⟩
  · intro store rdto freshId now provider d hfresh hd
    have hdmid : d.mid ≠ freshId := fun he =>
      hfresh (he ▸ List.mem_map.mpr ⟨d, hd, rfl⟩)
    cases provider with
    | network msg =>
      simp only [requestPayment]
      exact List.mem_append_left _ hd
    | resp code msg ty info ref =>
      simp only [requestPayment]
      split_ifs <;>
        exact mem_updateDepositById_of_ne (List.mem_append_left _ hd) hdmid
  · intro store wdto freshId now provider w hfresh hw
    have hwmid : w.mid ≠ freshId := fun he =>
      hfresh (he ▸ List.mem_map.mpr ⟨w, hw, rfl⟩)
    cases provider with
    | network msg =>
      simp only [createWithdraw]
      exact List.mem_append_left _ hw
    | resp code msg ty info ref =>
      simp only [createWithdraw]
      split_ifs
      · exact List.mem_append_left _ hw
      · exact mem_updateWithdrawById_of_ne (List.mem_append_left _ hw) hwmid

/-- Witness for C2: a settled (SUCCESSED) deposit row is untouched by a
further valid, matching success callback, and a settled withdraw row is
untouched likewise. -/
theorem terminal_transaction_never_mutated_witness :
    (([{ sampleDeposit with status := .SUCCESSED }].map Deposit.mid).Nodup
     ∧ { sampleDeposit with status := .SUCCESSED }
         ∈ (depositCallback [{ sampleDeposit with status := .SUCCESSED }]
             (signedDto "COPs9" "1") "KEY" 7).store
     ∧ (depositCallback [{ sampleDeposit with status := .SUCCESSED }]
           (signedDto "COPs9" "1") "KEY" 7).store.map Deposit.mid
         = [{ sampleDeposit with status := .SUCCESSED }].map Deposit.mid)
    ∧ ({ sampleWithdraw with status := .SUCCESS }
         ∈ (withdrawHandleCallback [{ sampleWithdraw with status := .SUCCESS }]
             (signedDto "COP_WITHDRAW_s_9" "1") "KEY" 7).store) := by
  refine ⟨⟨by decide, ?_, ?_⟩, ?_⟩
  · exact (terminal_transaction_never_mutated.1
      [{ sampleDeposit with status := .SUCCESSED }] (signedDto "COPs9" "1")
      "KEY" 7 { sampleDeposit with status := .SUCCESSED }
      (by decide) (by decide) (by decide)).1
  · exact (terminal_transaction_never_mutated.1
      [{ sampleDeposit with status := .SUCCESSED }] (signedDto "COPs9" "1")
      "KEY" 7 { sampleDeposit with status := .SUCCESSED }
      (by decide) (by decide) (by decide)).2
  · exact (terminal_transaction_never_mutated.2.1
      [{ sampleWithdraw with status := .SUCCESS }]
      (signedDto "COP_WITHDRAW_s_9" "1") "KEY" 7
      { sampleWithdraw with status := .SUCCESS }
      (by decide) (by decide) (by decide)).1

/-- Looking an order up after an update by id: the settlement update does not
touch `systemOrderNo`, so the lookup finds the same row, updated. -/
theorem findOneBySystemOrderNo_updateDepositById (s : DepositStore) (id : Nat)
    (f : Deposit → Deposit) (o : String)
    (hf : ∀ x, (f x).systemOrderNo = x.systemOrderNo) :
    findOneBySystemOrderNo (updateDepositById s id f) o
      = (findOneBySystemOrderNo s o).map
          (fun d => if d.mid = id then f d else d) := by
  unfold findOneBySystemOrderNo updateDepositById
  rw [List.find?_map]
  have hp : ((fun d : Deposit => d.systemOrderNo == some o) ∘
      (fun d => if d.mid = id then f d else d))
      = fun d : Deposit => d.systemOrderNo == some o := by
    funext x
    by_cases h : x.mid = id <;> simp [Function.comp, h, hf]
  rw [hp]

/-- Withdraw version of `findOneBySystemOrderNo_updateDepositById`. -/
theorem findWithdrawByOrderNo_updateWithdrawById (s : WithdrawStore) (id : Nat)
    (f : Withdraw → Withdraw) (o : String)
    (hf : ∀ x, (f x).systemOrderNo = x.systemOrderNo) :
    findWithdrawByOrderNo (updateWithdrawById s id f) o
      = (findWithdrawByOrderNo s o).map
          (fun w => if w.mid = id then f w else w) := by
  unfold findWithdrawByOrderNo updateWithdrawById
  rw [List.find?_map]
  have hp : ((fun w : Withdraw => w.systemOrderNo == o) ∘
      (fun w => if w.mid = id then f w else w))
      = fun w : Withdraw => w.systemOrderNo == o := by
    funext x
    by_cases h : x.mid = id <;> simp [Function.comp, h, hf]
  rw [hp]

/-- The settlement update always lands on a terminal status: SUCCESSED for
the success codes and FAILED otherwise, never PENDING. -/
theorem depositCallbackUpdate_not_pending (dto : CallbackDto) (now : Nat) :
    (depositCallbackUpdate dto now).status ≠ .PENDING := by
  unfold depositCallbackUpdate
  cases isSuccessStatus dto.orderStatus <;> simp

/-- The withdraw settlement update lands on SUCCESS or FAILED, never on
PENDING or PROCESSING. -/
theorem withdrawCallbackUpdate_terminal (dto : CallbackDto) (now : Nat)
    (w : Withdraw) :
    ¬((withdrawCallbackUpdate dto now w).status = .PENDING
      ∨ (withdrawCallbackUpdate dto now w).status = .PROCESSING) := by
  unfold withdrawCallbackUpdate
  cases isSuccessStatus dto.orderStatus <;> simp

/-! ## C4 -/

/-- The settlement update writes the computed status. -/
theorem applyUpdatePayment_status (u : UpdatePaymentInterface) (d : Deposit) :
    (applyUpdatePayment u d).status = u.status := rfl

/-- C4: delivering an identical, valid, matching callback a second time
after a first delivery is acknowledged with the literal `"success"` and
mutates nothing: the second call returns the store of the first call
unchanged, with only the lookup in its operation trace. This holds for the
deposit and the withdraw reconcilers. -/
theorem second_callback_delivery_is_noop :
    (∀ (store : DepositStore) dto signKey now1 now2 tx,
        verifyCallbackSignature dto signKey = true →
        findOneBySystemOrderNo store dto.orderNo = some tx →
        depositCallback (depositCallback store dto signKey now1).store dto
            signKey now2
          = ⟨.ok "success", (depositCallback store dto signKey now1).store,
             [.lookup dto.orderNo]⟩)
    ∧ (∀ (store : WithdrawStore) dto signKey now1 now2 w,
        verifyCallbackSignature dto signKey = true →
        findWithdrawByOrderNo store dto.orderNo = some w →
        withdrawHandleCallback
            (withdrawHandleCallback store dto signKey now1).store dto
            signKey now2
          = ⟨.ok "success", (withdrawHandleCallback store dto signKey now1).store,
             [.lookup dto.orderNo]⟩) := by
  constructor
  · intro store dto signKey now1 now2 tx hv hfind
    rw [depositCallback_eq store dto signKey now1 hv, hfind]
    by_cases hp : tx.status = .PENDING
    · simp only [hp, if_true]
      rw [depositCallback_eq _ dto signKey now2 hv,
        findOneBySystemOrderNo_updateDepositById store tx.mid
          (applyUpdatePayment (depositCallbackUpdate dto now1)) dto.orderNo
          (fun x => applyUpdatePayment_systemOrderNo _ x), hfind]
      simp only [Option.map_some', eq_self_iff_true, if_true,
        applyUpdatePayment_status]
      rw [if_neg (depositCallbackUpdate_not_pending dto now1)]
    · simp only [hp, if_false]
      rw [depositCallback_eq store dto signKey now2 hv, hfind]
      simp only [hp, if_false]
  · intro store dto signKey now1 now2 w hv hfind
    rw [withdrawHandleCallback_eq store dto signKey now1 hv, hfind]
    by_cases hp : w.status = .PENDING ∨ w.status = .PROCESSING
    · simp only [hp, if_true]
      rw [withdrawHandleCallback_eq _ dto signKey now2 hv,
        findWithdrawByOrderNo_updateWithdrawById store w.mid
          (withdrawCallbackUpdate dto now1) dto.orderNo
          (fun x => withdrawCallbackUpdate_systemOrderNo _ _ x), hfind]
      simp only [Option.map_some', eq_self_iff_true, if_true]
      rw [if_neg (withdrawCallbackUpdate_terminal dto now1 w)]
    · simp only [hp, if_false]
      rw [withdrawHandleCallback_eq store dto signKey now2 hv, hfind]
      simp only [hp, if_false]

/-- Witness for C4: a valid success callback against a concrete PENDING
deposit row settles it; delivering the identical callback again returns
`"success"` and leaves the store of the first delivery untouched, with no
update in its trace — and likewise on a concrete PROCESSING withdraw row. -/
theorem second_callback_delivery_is_noop_witness :
    (verifyCallbackSignature (signedDto "COPs9" "1") "KEY" = true
     ∧ depositCallback
          (depositCallback [sampleDeposit] (signedDto "COPs9" "1") "KEY" 4).store
          (signedDto "COPs9" "1") "KEY" 9
        = ⟨.ok "success",
           (depositCallback [sampleDeposit] (signedDto "COPs9" "1") "KEY" 4).store,
           [.lookup "COPs9"]⟩)
    ∧ withdrawHandleCallback
          (withdrawHandleCallback [{ sampleWithdraw with status := .PROCESSING }]
            (signedDto "COP_WITHDRAW_s_9" "1") "KEY" 4).store
          (signedDto "COP_WITHDRAW_s_9" "1") "KEY" 9
        = ⟨.ok "success",
           (withdrawHandleCallback [{ sampleWithdraw with status := .PROCESSING }]
             (signedDto "COP_WITHDRAW_s_9" "1") "KEY" 4).store,
           [.lookup "COP_WITHDRAW_s_9"]⟩ :=
  ⟨⟨verify_signedDto "COPs9" "1",
    second_callback_delivery_is_noop.1 [sampleDeposit] (signedDto "COPs9" "1")
      "KEY" 4 9 sampleDeposit (by decide) (by decide)⟩,
   second_callback_delivery_is_noop.2
     [{ sampleWithdraw with status := .PROCESSING }]
     (signedDto "COP_WITHDRAW_s_9" "1") "KEY" 4 9
     { sampleWithdraw with status := .PROCESSING } (by decide) (by decide)⟩

/-! ## C3 -/

/-- C3 (amended): `isSuccessStatus` accepts exactly the codes `"1"` and
`"3"`, and a verified, matching callback applied to a non-terminal
transaction maps those two codes to terminal SUCCESS and every other code —
including `"0"` (processing) and codes outside the known set — to terminal
FAILED; so no code outside `{"1","3"}` is ever mapped to success. -/
theorem callback_status_code_mapping :
    (∀ s, isSuccessStatus s = true ↔ s = "1" ∨ s = "3")
    ∧ (∀ (store : DepositStore) dto signKey now tx,
        verifyCallbackSignature dto signKey = true →
        findOneBySystemOrderNo store dto.orderNo = some tx →
        tx.status = .PENDING →
        (findOneBySystemOrderNo (depositCallback store dto signKey now).store
            dto.orderNo).map Deposit.status
          = some (if isSuccessStatus dto.orderStatus then .SUCCESSED else .FAILED))
    ∧ (∀ (store : WithdrawStore) dto signKey now w,
        verifyCallbackSignature dto signKey = true →
        findWithdrawByOrderNo store dto.orderNo = some w →
        w.status = .PENDING ∨ w.status = .PROCESSING →
        (findWithdrawByOrderNo
            (withdrawHandleCallback store dto signKey now).store
            dto.orderNo).map Withdraw.status
          = some (if isSuccessStatus dto.orderStatus then .SUCCESS else .FAILED)) := by
  refine ⟨?_, ?_, ?_⟩
  · intro s
    simp [isSuccessStatus, CallbackStatusEnum.SUCCESS,
      CallbackStatusEnum.MANUAL_SUCCESS]
  · intro store dto signKey now tx hv hfind hp
    rw [depositCallback_eq store dto signKey now hv, hfind]
    simp only [hp, if_true]
    rw [findOneBySystemOrderNo_updateDepositById store tx.mid
      (applyUpdatePayment (depositCallbackUpdate dto now)) dto.orderNo
      (fun x => applyUpdatePayment_systemOrderNo _ x), hfind]
    simp only [Option.map_some', eq_self_iff_true, if_true,
      applyUpdatePayment_status]
    simp [depositCallbackUpdate]
  · intro store dto signKey now w hv hfind hp
    rw [withdrawHandleCallback_eq store dto signKey now hv, hfind]
    simp only [hp, if_true]
    rw [findWithdrawByOrderNo_updateWithdrawById store w.mid
      (withdrawCallbackUpdate dto now) dto.orderNo
      (fun x => withdrawCallbackUpdate_systemOrderNo _ _ x), hfind]
    simp only [Option.map_some', eq_self_iff_true, if_true]
    simp [withdrawCallbackUpdate]

/-- Witness for C3 (amended): the deposit mapping applied to a concrete
PENDING row and a verified success-code callback. -/
theorem callback_status_code_mapping_witness :
    (verifyCallbackSignature (signedDto "COPs9" "3") "KEY" = true
     ∧ findOneBySystemOrderNo [sampleDeposit] "COPs9" = some sampleDeposit
     ∧ sampleDeposit.status = .PENDING)
    ∧ (findOneBySystemOrderNo
          (depositCallback [sampleDeposit] (signedDto "COPs9" "3") "KEY" 5).store
          "COPs9").map Deposit.status
        = some (if isSuccessStatus "3" then .SUCCESSED else .FAILED) :=
  ⟨⟨by decide, by decide, by decide⟩,
   callback_status_code_mapping.2.1 [sampleDeposit] (signedDto "COPs9" "3")
     "KEY" 5 sampleDeposit (by decide) (by decide) (by decide)⟩

/-- Counterexample to C3 as stated: a verified, matching callback carrying
the processing code `"0"` against a PENDING deposit row does cause a
terminal status transition — the handler marks the row FAILED. -/
theorem status_zero_causes_terminal_transition :
    sampleDeposit.status = .PENDING
    ∧ (signedDto "COPs9" "0").orderStatus = "0"
    ∧ verifyCallbackSignature (signedDto "COPs9" "0") "KEY" = true
    ∧ (depositCallback [sampleDeposit] (signedDto "COPs9" "0") "KEY" 5).store.map
        Deposit.status = [.FAILED]
    ∧ DepositStatus.isTerminal .FAILED = true := by decide

/-! ## C7 and C8 -/

theorem findDepositById_eq_none (s : DepositStore) (id : Nat)
    (h : id ∉ s.map Deposit.mid) : findDepositById s id = none := by
  unfold findDepositById
  refine List.find?_eq_none.mpr (fun d hd => ?_)
  simp only [beq_iff_eq]
  exact fun he => h (he ▸ List.mem_map.mpr ⟨d, hd, rfl⟩)

theorem findWithdrawById_eq_none (s : WithdrawStore) (id : Nat)
    (h : id ∉ s.map Withdraw.mid) : findWithdrawById s id = none := by
  unfold findWithdrawById
  refine List.find?_eq_none.mpr (fun w hw => ?_)
  simp only [beq_iff_eq]
  exact fun he => h (he ▸ List.mem_map.mpr ⟨w, hw, rfl⟩)

/-- A freshly appended row is found by its id. -/
theorem findDepositById_append (s : DepositStore) (tx : Deposit) (id : Nat)
    (hid : tx.mid = id) (h : id ∉ s.map Deposit.mid) :
    findDepositById (s ++ [tx]) id = some tx := by
  subst hid
  have h1 := findDepositById_eq_none s tx.mid h
  unfold findDepositById at h1 ⊢
  rw [List.find?_append, h1]
  simp

/-- A freshly appended withdraw row is found by its id. -/
theorem findWithdrawById_append (s : WithdrawStore) (w : Withdraw) (id : Nat)
    (hid : w.mid = id) (h : id ∉ s.map Withdraw.mid) :
    findWithdrawById (s ++ [w]) id = some w := by
  subst hid
  have h1 := findWithdrawById_eq_none s w.mid h
  unfold findWithdrawById at h1 ⊢
  rw [List.find?_append, h1]
  simp

/-- A freshly appended row, updated by its id, is found updated. -/
theorem findDepositById_update_append (s : DepositStore) (tx : Deposit)
    (id : Nat) (f : Deposit → Deposit) (hid : tx.mid = id)
    (hfid : ∀ x, (f x).mid = x.mid) (h : id ∉ s.map Deposit.mid) :
    findDepositById (updateDepositById (s ++ [tx]) id f) id
      = some (f tx) := by
  subst hid
  unfold findDepositById updateDepositById
  rw [List.map_append, List.find?_append]
  have h1 : ((s.map (fun d => if d.mid = tx.mid then f d else d)).find?
      (fun d => d.mid == tx.mid)) = none := by
    refine List.find?_eq_none.mpr (fun d hd => ?_)
    rcases List.mem_map.mp hd with ⟨x, hx, rfl⟩
    simp only [beq_iff_eq]
    intro he
    have hxid : x.mid = tx.mid := by
      by_cases hc : x.mid = tx.mid
      · exact hc
      · rw [if_neg hc] at he; exact he
    exact h (hxid ▸ List.mem_map.mpr ⟨x, hx, rfl⟩)
  rw [h1]
  simp [hfid]

/-- A freshly appended withdraw row, updated by its id, is found updated. -/
theorem findWithdrawById_update_append (s : WithdrawStore) (w : Withdraw)
    (id : Nat) (f : Withdraw → Withdraw) (hid : w.mid = id)
    (hfid : ∀ x, (f x).mid = x.mid) (h : id ∉ s.map Withdraw.mid) :
    findWithdrawById (updateWithdrawById (s ++ [w]) id f) id
      = some (f w) := by
  subst hid
  unfold findWithdrawById updateWithdrawById
  rw [List.map_append, List.find?_append]
  have h1 : ((s.map (fun x => if x.mid = w.mid then f x else x)).find?
      (fun x => x.mid == w.mid)) = none := by
    refine List.find?_eq_none.mpr (fun x hx => ?_)
    rcases List.mem_map.mp hx with ⟨y, hy, rfl⟩
    simp only [beq_iff_eq]
    intro he
    have hyid : y.mid = w.mid := by
      by_cases hc : y.mid = w.mid
      · exact hc
      · rw [if_neg hc] at he; exact he
    exact h (hyid ▸ List.mem_map.mpr ⟨y, hy, rfl⟩)
  rw [h1]
  simp [hfid]

/-- C7 (amended): when the provider answers a creation request with a
non-success response code, the deposit path marks the fresh row FAILED,
records the provider error code, and surfaces the provider-rejected error;
the withdraw path surfaces the same distinct provider-rejected error but
performs no store update — its row remains PENDING, not FAILED. On a
network/timeout failure both paths surface the upstream error, a constructor
distinct from provider-rejected, so callers can tell the two apart. -/
theorem provider_rejection_vs_upstream :
    (∀ (store : DepositStore) rdto freshId now code msg ty info ref,
        code ≠ "000" → freshId ∉ store.map Deposit.mid →
        (requestPayment store rdto freshId now (.resp code msg ty info ref)).1
            = .error (.providerRejected (jsOrElse msg "Payment creation failed"))
          ∧ (findDepositById
                (requestPayment store rdto freshId now
                  (.resp code msg ty info ref)).2 freshId).map Deposit.status
              = some .FAILED
          ∧ (findDepositById
                (requestPayment store rdto freshId now
                  (.resp code msg ty info ref)).2 freshId).map Deposit.errorCode
              = some (some code))
    ∧ (∀ (store : DepositStore) rdto freshId now msg,
        (requestPayment store rdto freshId now (.network msg)).1
          = .error (.upstream (jsOrElse msg "Unknown error")))
    ∧ (∀ (store : WithdrawStore) wdto freshId now code msg ty info ref,
        code ≠ "000" → freshId ∉ store.map Withdraw.mid →
        (createWithdraw store wdto freshId now (.resp code msg ty info ref)).1
            = .error (.providerRejected (jsOrElse msg "Payout creation failed"))
          ∧ (findWithdrawById
                (createWithdraw store wdto freshId now
                  (.resp code msg ty info ref)).2 freshId).map Withdraw.status
              = some .PENDING)
    ∧ (∀ (store : WithdrawStore) wdto freshId now msg,
        (createWithdraw store wdto freshId now (.network msg)).1
          = .error (.upstream (jsOrElse msg "Unknown error")))
    ∧ (∀ a b, ReqError.providerRejected a ≠ ReqError.upstream b) := by
  refine ⟨?_, fun store rdto freshId now msg => rfl, ?_,
    fun store wdto freshId now msg => rfl, fun a b h => by cases h⟩
  · intro store rdto freshId now code msg ty info ref hcode hfresh
    simp only [requestPayment, if_pos hcode]
    rw [findDepositById_update_append store (newDepositRow rdto freshId)
      freshId (paymentCreateFailed code (jsOrElse msg "Payment creation failed"))
      rfl (fun _ => rfl) hfresh]
    exact ⟨trivial, rfl, rfl⟩
  · intro store wdto freshId now code msg ty info ref hcode hfresh
    simp only [createWithdraw, if_pos hcode]
    rw [findWithdrawById_append store (newWithdrawRow wdto freshId now)
      freshId rfl hfresh]
    exact ⟨trivial, rfl⟩

/-- Witness for C7 (amended): a concrete rejected deposit request is marked
FAILED with the provider error recorded, and a concrete rejected withdraw
request surfaces the provider-rejected error while its row stays PENDING. -/
theorem provider_rejection_vs_upstream_witness :
    (("001" : String) ≠ "000"
     ∧ (requestPayment [] sampleDepositReq 1 9 (.resp "001" "nope" "" "" "")).1
        = .error (.providerRejected (jsOrElse "nope" "Payment creation failed"))
     ∧ (findDepositById
          (requestPayment [] sampleDepositReq 1 9 (.resp "001" "nope" "" "" "")).2
          1).map Deposit.status = some .FAILED)
    ∧ ((createWithdraw [] sampleWithdrawReq 1 9 (.resp "001" "nope" "" "" "")).1
        = .error (.providerRejected (jsOrElse "nope" "Payout creation failed"))
       ∧ (findWithdrawById
            (createWithdraw [] sampleWithdrawReq 1 9
              (.resp "001" "nope" "" "" "")).2 1).map Withdraw.status
          = some .PENDING) :=
  ⟨⟨by decide,
    (provider_rejection_vs_upstream.1 [] sampleDepositReq 1 9 "001" "nope"
      "" "" "" (by decide) (by decide)).1,
    (provider_rejection_vs_upstream.1 [] sampleDepositReq 1 9 "001" "nope"
      "" "" "" (by decide) (by decide)).2.1⟩,
   ⟨(provider_rejection_vs_upstream.2.2.1 [] sampleWithdrawReq 1 9 "001"
      "nope" "" "" "" (by decide) (by decide)).1,
    (provider_rejection_vs_upstream.2.2.1 [] sampleWithdrawReq 1 9 "001"
      "nope" "" "" "" (by decide) (by decide)).2⟩⟩

/-- Counterexample to C7 as stated: for the withdraw path the claim fails —
after a concrete provider rejection the withdraw row has not been marked
FAILED by any `markRequestRejected`: it is still PENDING. -/
theorem withdraw_rejection_leaves_row_pending :
    (createWithdraw [] sampleWithdrawReq 1 9 (.resp "001" "err" "" "" "")).1
      = .error (.providerRejected "err")
    ∧ (createWithdraw [] sampleWithdrawReq 1 9 (.resp "001" "err" "" "" "")).2.map
        Withdraw.status = [.PENDING]
    ∧ WithdrawStatus.PENDING ≠ WithdrawStatus.FAILED := by decide

/-- C8 (amended): recording provider acceptance never sets a terminal
status. For deposits, `paymentCreated` (markRequestAccepted) writes
providerRef and preview fields only and leaves the status field untouched,
so an accepted deposit row is still PENDING; for withdraws, however,
acceptance moves the row to PROCESSING — a non-terminal status, but not
PENDING. -/
theorem request_accepted_never_terminal :
    (∀ (f : PaymentCreatedFields) (d : Deposit),
        (paymentCreated f d).status = d.status)
    ∧ (∀ (store : DepositStore) rdto freshId now msg ty info ref,
        freshId ∉ store.map Deposit.mid →
        (findDepositById
            (requestPayment store rdto freshId now
              (.resp "000" msg ty info ref)).2 freshId).map Deposit.status
          = some .PENDING)
    ∧ (∀ (store : WithdrawStore) wdto freshId now msg ty info ref,
        freshId ∉ store.map Withdraw.mid →
        (findWithdrawById
            (createWithdraw store wdto freshId now
              (.resp "000" msg ty info ref)).2 freshId).map Withdraw.status
          = some .PROCESSING)
    ∧ WithdrawStatus.isTerminal .PROCESSING = false
    ∧ DepositStatus.isTerminal .PENDING = false := by
  refine ⟨fun f d => rfl, ?_, ?_, rfl, rfl⟩
  · intro store rdto freshId now msg ty info ref hfresh
    simp only [requestPayment, ne_eq, not_true_eq_false, if_false, reduceIte]
    rw [findDepositById_update_append store (newDepositRow rdto freshId)
      freshId
      (paymentCreated
        { payee := rdto.username, payAmount := rdto.amount,
          qrCode := if ty == "url" then info else "", systemRef := ref,
          systemOrderNo := depositOrderNo rdto.site now, fee := 0,
          expiredAt := now + fifteenMinutesMs })
      rfl (fun _ => rfl) hfresh]
    rfl
  · intro store wdto freshId now msg ty info ref hfresh
    simp only [createWithdraw, ne_eq, not_true_eq_false, if_false, reduceIte]
    rw [findWithdrawById_update_append store (newWithdrawRow wdto freshId now)
      freshId
      (fun x => { x with systemRef := some ref,
                         status := WithdrawStatus.PROCESSING })
      rfl (fun _ => rfl) hfresh]
    rfl

/-- Witness for C8 (amended): a concrete accepted deposit stays PENDING and
a concrete accepted withdraw moves to PROCESSING. -/
theorem request_accepted_never_terminal_witness :
    ((findDepositById
        (requestPayment [] sampleDepositReq 1 9
          (.resp "000" "" "url" "http://pay" "P1")).2 1).map Deposit.status
      = some .PENDING)
    ∧ ((findWithdrawById
        (createWithdraw [] sampleWithdrawReq 1 9
          (.resp "000" "" "" "" "P1")).2 1).map Withdraw.status
      = some .PROCESSING) :=
  ⟨request_accepted_never_terminal.2.1 [] sampleDepositReq 1 9 "" "url"
     "http://pay" "P1" (by decide),
   request_accepted_never_terminal.2.2.1 [] sampleWithdrawReq 1 9 "" "" ""
     "P1" (by decide)⟩

/-- Counterexample to C8 as stated: on a concrete accepted withdraw request
the acceptance update does not leave the status unchanged at PENDING — the
row moves to PROCESSING. -/
theorem withdraw_acceptance_sets_processing :
    (createWithdraw [] sampleWithdrawReq 1 9 (.resp "000" "" "" "" "P1")).2.map
        Withdraw.status = [.PROCESSING]
    ∧ WithdrawStatus.PROCESSING ≠ WithdrawStatus.PENDING := by decide

/-! ## C9 -/

/-- C9 (amended): the non-terminal guard is a separate read-then-write, not
a single atomic conditional update: with a verified signature the handler's
store effect is exactly the write phase — an `updateOne` filtered only by
`_id`, guarded by the status of the snapshot the read phase returned —
applied after the read phase. Under serialized execution of two duplicate
callbacks against a PENDING row, both return `"success"` and exactly one
mutation happens: the first performs the update, the second performs none. -/
theorem callback_guard_is_read_then_write :
    (∀ (store : DepositStore) dto signKey now,
        verifyCallbackSignature dto signKey = true →
        (depositCallback store dto signKey now).store
          = match depositReadPhase store dto.orderNo with
            | none => store
            | some tx => (depositWritePhase store tx dto now).1)
    ∧ (∀ (store : DepositStore) dto1 dto2 signKey n1 n2 tx,
        verifyCallbackSignature dto1 signKey = true →
        verifyCallbackSignature dto2 signKey = true →
        dto2.orderNo = dto1.orderNo →
        findOneBySystemOrderNo store dto1.orderNo = some tx →
        tx.status = .PENDING →
        (depositCallback store dto1 signKey n1).result = .ok "success"
        ∧ StoreOp.update tx.mid ∈ (depositCallback store dto1 signKey n1).trace
        ∧ (depositCallback (depositCallback store dto1 signKey n1).store dto2
            signKey n2).result = .ok "success"
        ∧ ∀ id, StoreOp.update id
            ∉ (depositCallback (depositCallback store dto1 signKey n1).store dto2
                signKey n2).trace) := by
  constructor
  · intro store dto signKey now hv
    unfold depositCallback
    rw [hv]
    cases hread : depositReadPhase store dto.orderNo with
    | none => simp
    | some tx =>
      cases hw : depositWritePhase store tx dto now with
      | mk store2 wrote => simp [hw]
  · intro store dto1 dto2 signKey n1 n2 tx hv1 hv2 hord hfind hp
    have h1 := depositCallback_eq store dto1 signKey n1 hv1
    rw [hfind] at h1
    simp only [hp, if_true] at h1
    refine ⟨by rw [h1], by rw [h1]; simp, ?_, ?_⟩
    · rw [h1, depositCallback_eq _ dto2 signKey n2 hv2, hord,
        findOneBySystemOrderNo_updateDepositById store tx.mid
          (applyUpdatePayment (depositCallbackUpdate dto1 n1)) dto1.orderNo
          (fun x => applyUpdatePayment_systemOrderNo _ x), hfind]
      simp only [Option.map_some', eq_self_iff_true, if_true,
        applyUpdatePayment_status]
      rw [if_neg (depositCallbackUpdate_not_pending dto1 n1)]
    · intro id
      rw [h1, depositCallback_eq _ dto2 signKey n2 hv2, hord,
        findOneBySystemOrderNo_updateDepositById store tx.mid
          (applyUpdatePayment (depositCallbackUpdate dto1 n1)) dto1.orderNo
          (fun x => applyUpdatePayment_systemOrderNo _ x), hfind]
      simp only [Option.map_some', eq_self_iff_true, if_true,
        applyUpdatePayment_status]
      rw [if_neg (depositCallbackUpdate_not_pending dto1 n1)]
      simp

/-- Witness for C9 (amended): the serialized-execution part applied to a
concrete PENDING row and two concrete verified duplicate callbacks. -/
theorem callback_guard_is_read_then_write_witness :
    (depositCallback [sampleDeposit] (signedDto "COPs9" "1") "KEY" 11).result
        = .ok "success"
    ∧ StoreOp.update 1
        ∈ (depositCallback [sampleDeposit] (signedDto "COPs9" "1") "KEY" 11).trace
    ∧ (depositCallback
          (depositCallback [sampleDeposit] (signedDto "COPs9" "1") "KEY" 11).store
          (signedDto "COPs9" "1") "KEY" 12).result = .ok "success"
    ∧ ∀ id, StoreOp.update id
        ∉ (depositCallback
            (depositCallback [sampleDeposit] (signedDto "COPs9" "1") "KEY" 11).store
            (signedDto "COPs9" "1") "KEY" 12).trace :=
  callback_guard_is_read_then_write.2 [sampleDeposit] (signedDto "COPs9" "1")
    (signedDto "COPs9" "1") "KEY" 11 12 sampleDeposit (by decide) (by decide)
    (by decide) (by decide) (by decide)

/-- Counterexample to C9 as stated: because the guard is a read-then-write
and the write is filtered only by `_id`, interleaving the phases of two
verified duplicate callbacks (read₁, read₂, write₁, write₂) from a concrete
PENDING row lets both pass the guard and both write: two terminal mutations
occur, not exactly one, and the second write (FAILED, from code `"2"`)
overwrites the terminal SUCCESS the first write produced. -/
theorem interleaved_duplicate_callbacks_both_write :
    verifyCallbackSignature (signedDto "COPs9" "1") "KEY" = true
    ∧ verifyCallbackSignature (signedDto "COPs9" "2") "KEY" = true
    ∧ depositReadPhase [sampleDeposit] "COPs9" = some sampleDeposit
    ∧ (depositWritePhase [sampleDeposit] sampleDeposit
        (signedDto "COPs9" "1") 11).2 = true
    ∧ (depositWritePhase [sampleDeposit] sampleDeposit
        (signedDto "COPs9" "1") 11).1.map Deposit.status = [.SUCCESSED]
    ∧ (depositWritePhase
        (depositWritePhase [sampleDeposit] sampleDeposit
          (signedDto "COPs9" "1") 11).1
        sampleDeposit (signedDto "COPs9" "2") 12).2 = true
    ∧ (depositWritePhase
        (depositWritePhase [sampleDeposit] sampleDeposit
          (signedDto "COPs9" "1") 11).1
        sampleDeposit (signedDto "COPs9" "2") 12).1.map Deposit.status
      = [.FAILED] := by decide

/-! ## C10 -/

theorem containsSubstring_go_iff (needle : List Char) :
    ∀ hay, containsSubstring.go needle hay = true ↔ needle <:+: hay := by
  intro hay
  induction hay with
  | nil =>
    simp [containsSubstring.go, List.isEmpty_iff, List.infix_nil]
  | cons c cs ih =>
    simp [containsSubstring.go, Bool.or_eq_true, List.isPrefixOf_iff_prefix,
      ih, List.infix_cons_iff]

/-- `String.prototype.includes` decides substring containment. -/
theorem containsSubstring_iff (s sub : String) :
    containsSubstring s sub = true ↔ sub.data <:+: s.data :=
  containsSubstring_go_iff sub.data s.data

theorem infix_append_mono {l m : List Char} (pre suf : List Char)
    (h : l <:+: m) : l <:+: (pre ++ m) ++ suf := by
  rcases h with ⟨u, v, huv⟩
  exact ⟨pre ++ u, v ++ suf, by rw [← huv]; simp [List.append_assoc]⟩

/-- C10: the unified callback endpoint routes a callback to the withdraw
handler iff its `orderNo` contains the substring `WITHDRAW`, and otherwise
to the deposit handler; since deposit order numbers are
`COP<site><timestamp>`, a deposit created for a site identifier that itself
contains `WITHDRAW` has its callback routed to the withdraw handler and
never dispatched to the deposit handler. -/
theorem dispatch_by_WITHDRAW_substring :
    (∀ dto : CallbackDto, dispatch dto = .withdraw ↔
        containsSubstring dto.orderNo "WITHDRAW" = true)
    ∧ (∀ (site : String) (now : Nat) (dto : CallbackDto),
        containsSubstring site "WITHDRAW" = true →
        dto.orderNo = depositOrderNo site now →
        dispatch dto = .withdraw ∧ dispatch dto ≠ .deposit) := by
  constructor
  · intro dto
    unfold dispatch
    cases hc : containsSubstring dto.orderNo "WITHDRAW" <;> simp [hc]
  · intro site now dto hsite hord
    have h1 : containsSubstring dto.orderNo "WITHDRAW" = true := by
      rw [hord]
      rw [containsSubstring_iff] at hsite ⊢
      unfold depositOrderNo
      rw [String.data_append, String.data_append]
      exact infix_append_mono "COP".data (toString now).data hsite
    unfold dispatch
    rw [h1]
    exact ⟨rfl, by simp⟩

/-- Witness for C10: a site identifier containing `WITHDRAW` makes the
deposit order number route to the withdraw handler. -/
theorem dispatch_by_WITHDRAW_substring_witness :
    containsSubstring "XWITHDRAWY" "WITHDRAW" = true
    ∧ dispatch (signedDto (depositOrderNo "XWITHDRAWY" 7) "1") = .withdraw
    ∧ dispatch (signedDto (depositOrderNo "XWITHDRAWY" 7) "1") ≠ .deposit :=
  ⟨by decide,
   (dispatch_by_WITHDRAW_substring.2 "XWITHDRAWY" 7
     (signedDto (depositOrderNo "XWITHDRAWY" 7) "1") (by decide) rfl).1,
   (dispatch_by_WITHDRAW_substring.2 "XWITHDRAWY" 7
     (signedDto (depositOrderNo "XWITHDRAWY" 7) "1") (by decide) rfl).2⟩

end Copo


